/-
Verification of the Traffic_Control simulation core against its
natural-language specification.

The definitions below are a shallow embedding of the Python sources:
  * src/src/traffic_light.py  — traffic-light state machine and controller
  * src/src/vehicles.py       — vehicle kinetics (Template Method skeleton)
  * src/src/collision_utils.py — spatial query layer (spacing / light gating)
  * src/main.py               — the orchestrator's own per-frame gates
  * src/src/event_system.py   — Chain of Responsibility event pipeline

Floats of the source are modelled as rationals (ℚ); Python dicts with fixed
key sets are modelled as structures; `random.random()` draws are explicit
boolean/integer inputs threaded into the step functions.
-/

import Mathlib

/-! ## Traffic lights (src/src/traffic_light.py)

The per-state object hierarchy (GreenState / YellowState / RedState) is
collapsed into the `Phase` enum together with phase-indexed functions: each
state class only carries `can_pass`, its duration field and its successor. -/

/-- The three states of `traffic_light.py`: GreenState, YellowState, RedState. -/
inductive Phase where
  | green
  | yellow
  | red
deriving DecidableEq

/-- `next_state` of each state class: Green→Yellow→Red→Green. -/
def Phase.nextPhase : Phase → Phase
  | .green => .yellow
  | .yellow => .red
  | .red => .green

/-- `can_pass` of each state class: only GreenState returns True. -/
def Phase.canPassB : Phase → Bool
  | .green => true
  | .yellow => false
  | .red => false

/-- `TrafficLight` (traffic_light.py:125-146): position, orientation,
configured durations, current state (phase + `time_in_state` of the live
state object) and the manual-override flag. -/
structure TrafficLight where
  x : Int
  y : Int
  direction : String
  green_duration : ℚ
  yellow_duration : ℚ
  red_duration : ℚ
  phase : Phase
  time_in_state : ℚ
  manual_override : Bool
deriving DecidableEq

namespace TrafficLight

/-- `TrafficLight.__init__`: initial state RedState with `on_enter`
(time_in_state = 0), manual_override = False. -/
def init (x y : Int) (direction : String) (g yw r : ℚ) : TrafficLight :=
  ⟨x, y, direction, g, yw, r, .red, 0, false⟩

/-- `get_duration` of the current state object (each reads its own
configured duration off the light). -/
def stateDuration (l : TrafficLight) : ℚ :=
  match l.phase with
  | .green => l.green_duration
  | .yellow => l.yellow_duration
  | .red => l.red_duration

/-- `change_state`: install the new state object; its `on_enter` resets
`time_in_state` to 0. -/
def changeState (l : TrafficLight) (p : Phase) : TrafficLight :=
  { l with phase := p, time_in_state := 0 }

/-- `TrafficLightState.update` (traffic_light.py:41-46): accumulate dt and
transition to the successor state once the configured duration is reached. -/
def stateUpdate (dt : ℚ) (l : TrafficLight) : TrafficLight :=
  let l1 := { l with time_in_state := l.time_in_state + dt }
  if l1.time_in_state ≥ l1.stateDuration then l1.changeState l1.phase.nextPhase else l1

/-- `TrafficLight.update` (traffic_light.py:155-158): the timer only runs
when manual override is off. -/
def update (dt : ℚ) (l : TrafficLight) : TrafficLight :=
  if l.manual_override then l else stateUpdate dt l

/-- `TrafficLight.can_pass`: delegated to the current state. -/
def canPass (l : TrafficLight) : Bool :=
  l.phase.canPassB

/-- `cycle_state` (traffic_light.py:223-226): only in manual mode, advance
to the current state's successor. -/
def cycleState (l : TrafficLight) : TrafficLight :=
  if l.manual_override then l.changeState l.phase.nextPhase else l

/-- `force_red` (traffic_light.py:213-216): only in manual mode. -/
def forceRed (l : TrafficLight) : TrafficLight :=
  if l.manual_override then l.changeState .red else l

/-- Direct attribute write `light.manual_override = b` (main.py:102-105). -/
def setManual (l : TrafficLight) (b : Bool) : TrafficLight :=
  { l with manual_override := b }

end TrafficLight

/-- `TrafficLightController` (traffic_light.py:239-290). `add_traffic_light`
partitions lights by orientation; the all-lights list is the union of the
two partitions, so the controller is modelled by the two partitions. -/
structure TrafficLightController where
  horizontal_lights : List TrafficLight
  vertical_lights : List TrafficLight
deriving DecidableEq

namespace TrafficLightController

/-- The inner loop of `coordinate_lights`, run when a non-manual horizontal
light is green: every non-manual green vertical light is forced to Red. -/
def conflictStep (vs : List TrafficLight) : List TrafficLight :=
  vs.map fun v =>
    if !v.manual_override && v.canPass then v.changeState .red else v

/-- `coordinate_lights` (traffic_light.py:267-277): scan horizontal lights
in order; each non-manual green one forces all non-manual green vertical
lights to Red. Horizontal lights themselves are never modified. -/
def coordinate (hs vs : List TrafficLight) : List TrafficLight :=
  hs.foldl (fun acc h => if !h.manual_override && h.canPass then conflictStep acc else acc) vs

/-- `TrafficLightController.update` (traffic_light.py:259-265): update every
light, then coordinate perpendicular conflicts. -/
def update (dt : ℚ) (c : TrafficLightController) : TrafficLightController :=
  let hs := c.horizontal_lights.map (TrafficLight.update dt)
  let vs := c.vertical_lights.map (TrafficLight.update dt)
  ⟨hs, coordinate hs vs⟩

end TrafficLightController

/-! ### The intersection as built by the game (main.py:78-116)

Four lights with `green_duration=6.0, red_duration=6.0` (yellow left at its
default 2.0); `force_red()` is called while `manual_override` is still
False (a no-op), then `manual_override` is set to True on all four. -/

/-- One game light as `setup_intersection` builds it. -/
def setupLight (x y : Int) (direction : String) : TrafficLight :=
  ((TrafficLight.init x y direction 6 2 6).forceRed).setManual true

/-- The game controller after `setup_intersection` (center is (500, 300)). -/
def setupController : TrafficLightController :=
  ⟨[setupLight 300 200 "horizontal", setupLight 700 400 "horizontal"],
   [setupLight 400 100 "vertical", setupLight 600 500 "vertical"]⟩

/-! ### Helper lemmas about coordination -/

/-- All non-manual lights of a list fail `can_pass`. -/
def NoOpenNonManual (vs : List TrafficLight) : Prop :=
  ∀ v ∈ vs, v.manual_override = false → v.canPass = false

theorem coordinate_nil (vs : List TrafficLight) :
    TrafficLightController.coordinate [] vs = vs := rfl

theorem coordinate_cons (a : TrafficLight) (t vs : List TrafficLight) :
    TrafficLightController.coordinate (a :: t) vs =
      TrafficLightController.coordinate t
        (if !a.manual_override && a.canPass then TrafficLightController.conflictStep vs
         else vs) := rfl

theorem conflictStep_noOpen (vs : List TrafficLight) :
    NoOpenNonManual (TrafficLightController.conflictStep vs) := by
  intro v hv hman
  rcases List.mem_map.mp hv with ⟨w, hw, hwv⟩
  subst hwv
  by_cases hc : (!w.manual_override && w.canPass) = true
  · rw [if_pos hc]
    rfl
  · rw [if_neg hc] at hman ⊢
    cases hcp : w.canPass
    · rfl
    · exact absurd (by simp [hman, hcp]) hc

theorem coordinate_preserves_noOpen (hs : List TrafficLight) :
    ∀ vs : List TrafficLight, NoOpenNonManual vs →
      NoOpenNonManual (TrafficLightController.coordinate hs vs) := by
  induction hs with
  | nil => intro vs h; rw [coordinate_nil]; exact h
  | cons a t ih =>
    intro vs h
    rw [coordinate_cons]
    by_cases hc : (!a.manual_override && a.canPass) = true
    · rw [if_pos hc]
      exact ih _ (conflictStep_noOpen vs)
    · rw [if_neg hc]
      exact ih _ h

theorem coordinate_noOpen_of_mem (hs : List TrafficLight) (h : TrafficLight)
    (hmem : h ∈ hs) (hman : h.manual_override = false) (hpass : h.canPass = true) :
    ∀ vs : List TrafficLight,
      NoOpenNonManual (TrafficLightController.coordinate hs vs) := by
  induction hs with
  | nil => cases hmem
  | cons a t ih =>
    intro vs
    rw [coordinate_cons]
    rcases List.mem_cons.mp hmem with rfl | hmt
    · rw [if_pos (by simp [hman, hpass])]
      exact coordinate_preserves_noOpen t _ (conflictStep_noOpen vs)
    · by_cases hc : (!a.manual_override && a.canPass) = true
      · rw [if_pos hc]
        exact coordinate_preserves_noOpen t _ (conflictStep_noOpen vs)
      · rw [if_neg hc]
        exact ih hmt vs

theorem coordinate_of_all_manual (hs : List TrafficLight)
    (h : ∀ l ∈ hs, l.manual_override = true) :
    ∀ vs : List TrafficLight, TrafficLightController.coordinate hs vs = vs := by
  induction hs with
  | nil => intro vs; rfl
  | cons a t ih =>
    intro vs
    rw [coordinate_cons, if_neg (by simp [h a (List.mem_cons_self a t)])]
    exact ih (fun l hl => h l (List.mem_cons_of_mem a hl)) vs

/-! ## Claim theorems about the traffic lights -/

/-- C4: after every `TrafficLightController.update`, no horizontal/vertical
pair of lights that both have `manual_override = false` can both report
allow-pass (Green): `coordinate_lights` forces the vertical one to Red. -/
theorem controller_update_no_green_conflict
    (c : TrafficLightController) (dt : ℚ) (h v : TrafficLight)
    (hh : h ∈ (c.update dt).horizontal_lights)
    (hv : v ∈ (c.update dt).vertical_lights)
    (hman : h.manual_override = false) (vman : v.manual_override = false) :
    ¬(h.canPass = true ∧ v.canPass = true) := by
  rintro ⟨hp, vp⟩
  have hnoOpen : NoOpenNonManual
      (TrafficLightController.coordinate
        (c.horizontal_lights.map (TrafficLight.update dt))
        (c.vertical_lights.map (TrafficLight.update dt))) :=
    coordinate_noOpen_of_mem _ h hh hman hp _
  have hfalse := hnoOpen v hv vman
  rw [vp] at hfalse
  exact Bool.noConfusion hfalse

/-- A concrete conflict: one non-manual green horizontal light and one
non-manual green vertical light, resolved by the controller update. -/
def greenLightH : TrafficLight := ⟨300, 200, "horizontal", 6, 2, 6, .green, 0, false⟩

def greenLightV : TrafficLight := ⟨400, 100, "vertical", 6, 2, 6, .green, 0, false⟩

theorem update_zero_greenLightH : TrafficLight.update 0 greenLightH = greenLightH := by
  show TrafficLight.stateUpdate 0 greenLightH = greenLightH
  rw [TrafficLight.stateUpdate]
  norm_num [greenLightH, TrafficLight.stateDuration]

theorem update_zero_greenLightV : TrafficLight.update 0 greenLightV = greenLightV := by
  show TrafficLight.stateUpdate 0 greenLightV = greenLightV
  rw [TrafficLight.stateUpdate]
  norm_num [greenLightV, TrafficLight.stateDuration]

theorem controller_update_no_green_conflict_witness :
    ¬(greenLightH.canPass = true ∧ (greenLightV.changeState .red).canPass = true) := by
  have e1 : (TrafficLightController.update 0
      ⟨[greenLightH], [greenLightV]⟩).horizontal_lights = [greenLightH] := by
    show [TrafficLight.update 0 greenLightH] = [greenLightH]
    rw [update_zero_greenLightH]
  have e2 : (TrafficLightController.update 0
      ⟨[greenLightH], [greenLightV]⟩).vertical_lights = [greenLightV.changeState .red] := by
    show TrafficLightController.coordinate [TrafficLight.update 0 greenLightH]
      [TrafficLight.update 0 greenLightV] = _
    rw [update_zero_greenLightH, update_zero_greenLightV]
    rfl
  exact controller_update_no_green_conflict ⟨[greenLightH], [greenLightV]⟩ 0
    greenLightH (greenLightV.changeState .red)
    (by rw [e1]; exact List.mem_singleton.mpr rfl)
    (by rw [e2]; exact List.mem_singleton.mpr rfl)
    rfl rfl

/-- C7: a light in manual mode returns to its original phase after three
`cycle_state` commands, each advancing one step of Green→Yellow→Red→Green. -/
theorem cycle_three_roundtrip (l : TrafficLight) (h : l.manual_override = true) :
    l.cycleState.cycleState.cycleState.phase = l.phase ∧
    l.cycleState.phase = l.phase.nextPhase := by
  obtain ⟨x, y, d, g, yw, r, p, t, m⟩ := l
  subst h
  exact ⟨by cases p <;> rfl, by cases p <;> rfl⟩

theorem cycle_three_roundtrip_witness :
    (setupLight 300 200 "horizontal").cycleState.cycleState.cycleState.phase =
      (setupLight 300 200 "horizontal").phase ∧
    (setupLight 300 200 "horizontal").cycleState.phase =
      (setupLight 300 200 "horizontal").phase.nextPhase :=
  cycle_three_roundtrip _ (by decide)

/-- C8: with manual override set, `update(dt)` is the identity (elapsed time
frozen, no timer transition) for any sequence of frame deltas, and
`cycle_state` advances exactly one step of the fixed order regardless of the
elapsed time. -/
theorem manual_override_freezes (l : TrafficLight) (h : l.manual_override = true) :
    (∀ dts : List ℚ, dts.foldl (fun a dt => TrafficLight.update dt a) l = l) ∧
    (∀ dt : ℚ, TrafficLight.update dt l = l) ∧
    l.cycleState.phase = l.phase.nextPhase ∧
    l.cycleState.time_in_state = 0 := by
  obtain ⟨x, y, d, g, yw, r, p, t, m⟩ := l
  subst h
  refine ⟨?_, fun dt => rfl, rfl, rfl⟩
  intro dts
  induction dts with
  | nil => rfl
  | cons a ts ih => exact ih

theorem manual_override_freezes_witness :
    (TrafficLight.update 100 (setupLight 300 200 "horizontal") =
      setupLight 300 200 "horizontal") ∧
    (setupLight 300 200 "horizontal").cycleState.phase =
      (setupLight 300 200 "horizontal").phase.nextPhase :=
  ⟨(manual_override_freezes _ (by decide)).2.1 100,
   (manual_override_freezes _ (by decide)).2.2.1⟩

/-- C9: all four lights of `setup_intersection` carry
`manual_override = true`; on any controller whose lights are all manual the
per-frame `TrafficLightController.update` is the identity (neither the
timer nor `coordinate_lights` ever changes a phase); and the reachable
operations (`update`, the click-driven `cycle_state`) never clear the flag,
so the click-driven cycle is the only phase mutation. -/
theorem game_lights_manual_only :
    (∀ l ∈ setupController.horizontal_lights ++ setupController.vertical_lights,
      l.manual_override = true) ∧
    (∀ c : TrafficLightController,
      (∀ l ∈ c.horizontal_lights ++ c.vertical_lights, l.manual_override = true) →
      ∀ dt : ℚ, c.update dt = c) ∧
    (∀ (l : TrafficLight) (dt : ℚ), l.manual_override = true →
      TrafficLight.update dt l = l ∧
      l.cycleState.manual_override = true) := by
  have hmapid : ∀ (dt : ℚ) (ls : List TrafficLight),
      (∀ l ∈ ls, l.manual_override = true) → ls.map (TrafficLight.update dt) = ls := by
    intro dt ls h
    induction ls with
    | nil => rfl
    | cons a ts ih =>
      rw [List.map_cons,
        show TrafficLight.update dt a = a by
          simp [TrafficLight.update, h a (List.mem_cons_self a ts)],
        ih (fun l hl => h l (List.mem_cons_of_mem a hl))]
  refine ⟨by decide, ?_, ?_⟩
  · intro c hall dt
    have hh : ∀ l ∈ c.horizontal_lights, l.manual_override = true := fun l hl =>
      hall l (List.mem_append.mpr (Or.inl hl))
    have hv : ∀ l ∈ c.vertical_lights, l.manual_override = true := fun l hl =>
      hall l (List.mem_append.mpr (Or.inr hl))
    show (⟨_, TrafficLightController.coordinate _ _⟩ : TrafficLightController) = c
    rw [hmapid dt _ hh, hmapid dt _ hv, coordinate_of_all_manual _ hh]
  · intro l dt h
    obtain ⟨x, y, d, g, yw, r, p, t, m⟩ := l
    subst h
    exact ⟨rfl, rfl⟩

/-! ## Vehicles (src/src/vehicles.py)

The Template Method skeleton `Vehicle.update` with the five species
(`Car`, `FastCar`, `Bus`, `EmergencyVehicle`, `Truck`). Each `random`
draw of the source is an explicit input in `RandomInput`. -/

/-- Travel directions of a vehicle ('right', 'left', 'down', 'up'). -/
inductive Dir where
  | right
  | left
  | down
  | up
deriving DecidableEq

/-- The five concrete `Vehicle` subclasses. -/
inductive VehicleClass where
  | car
  | fast_car
  | bus
  | emergency
  | truck
deriving DecidableEq

namespace VehicleClass

/-- `get_base_speed` of each subclass. -/
def baseSpeed : VehicleClass → ℚ
  | .car => 100
  | .fast_car => 150
  | .bus => 60
  | .emergency => 180
  | .truck => 50

/-- `get_max_speed` of each subclass. -/
def maxSpeed : VehicleClass → ℚ
  | .car => 150
  | .fast_car => 250
  | .bus => 100
  | .emergency => 200
  | .truck => 80

/-- `get_acceleration` of each subclass. -/
def accel : VehicleClass → ℚ
  | .car => 80
  | .fast_car => 150
  | .bus => 40
  | .emergency => 200
  | .truck => 30

/-- `get_size` of each subclass: (length along travel axis, width). -/
def sizeOf : VehicleClass → Nat × Nat
  | .car => (50, 30)
  | .fast_car => (55, 32)
  | .bus => (85, 38)
  | .emergency => (60, 35)
  | .truck => (110, 40)

/-- `check_priority`: True only for `EmergencyVehicle`. -/
def priority : VehicleClass → Bool
  | .emergency => true
  | _ => false

end VehicleClass

/-- `Vehicle` state (vehicles.py:19-31): position, direction, lane, speed
data, footprint `size` (sizeL, sizeW), `stopped`, accumulated
`waiting_time` and the `has_priority` flag. The color/image attributes are
rendering-only and omitted. -/
structure Vehicle where
  x : ℚ
  y : ℚ
  direction : Dir
  lane : Int
  speed : ℚ
  max_speed : ℚ
  acceleration : ℚ
  sizeL : Nat
  sizeW : Nat
  cls : VehicleClass
  stopped : Bool
  waiting_time : ℚ
  has_priority : Bool
deriving DecidableEq

/-- `Vehicle.__init__` as specialised by each subclass (speed starts at the
base speed, `stopped = False`, `waiting_time = 0`). -/
def mkVehicle (cls : VehicleClass) (x y : ℚ) (direction : Dir) (lane : Int) : Vehicle :=
  ⟨x, y, direction, lane, cls.baseSpeed, cls.maxSpeed, cls.accel,
   (cls.sizeOf).1, (cls.sizeOf).2, cls, false, 0, cls.priority⟩

/-- The `random` draws one call of `Vehicle.update` can consume:
`FastCar.special_behavior` draws `random.random() < 0.01` and
`random.randint(-2, 2)`; `Bus.special_behavior` draws
`random.random() < 0.002` (stop) and `random.random() < 0.1` (resume). -/
structure RandomInput where
  fastJitterHit : Bool
  fastJitterAmount : Int
  busStopHit : Bool
  busResumeHit : Bool

namespace Vehicle

/-- The second statement of `Bus.special_behavior` (vehicles.py:280-282):
a bus standing still for more than a second resumes at its base speed on a
successful 10%-per-frame draw. -/
def busResume (r : RandomInput) (v1 : Vehicle) : Vehicle :=
  if v1.speed = 0 ∧ v1.waiting_time > 1 ∧ r.busResumeHit = true then
    { v1 with speed := VehicleClass.baseSpeed .bus }
  else v1

/-- `special_behavior` hooks (vehicles.py:244-250, 274-282): the base class
and `Car`/`EmergencyVehicle`/`Truck` do nothing; `FastCar` jitters
laterally; `Bus` may stop (vehicles.py:276-278) and then runs the
resumption step. -/
def specialBehavior (r : RandomInput) (v : Vehicle) : Vehicle :=
  match v.cls with
  | .fast_car =>
    if !v.stopped && r.fastJitterHit then
      match v.direction with
      | .left => { v with y := v.y + r.fastJitterAmount }
      | .right => { v with y := v.y + r.fastJitterAmount }
      | .down => { v with x := v.x + r.fastJitterAmount }
      | .up => { v with x := v.x + r.fastJitterAmount }
    else v
  | .bus =>
    busResume r
      (if !v.stopped && r.busStopHit then { v with speed := 0, waiting_time := 0 } else v)
  | _ => v

/-- `accelerate` (vehicles.py:73-76). -/
def accelerate (dt : ℚ) (v : Vehicle) : Vehicle :=
  if v.speed < v.max_speed then
    { v with speed := min (v.speed + v.acceleration * dt) v.max_speed }
  else v

/-- `decelerate` (vehicles.py:78-81), with `Truck`'s gentler 1.5× override
(vehicles.py:348-351); every other subclass brakes at 2× acceleration. -/
def decelerate (dt : ℚ) (v : Vehicle) : Vehicle :=
  if v.speed > 0 then
    { v with speed := max (v.speed - v.acceleration * (if v.cls = .truck then (3/2 : ℚ) else 2) * dt) 0 }
  else v

/-- `move` (vehicles.py:62-71). -/
def move (dt : ℚ) (v : Vehicle) : Vehicle :=
  match v.direction with
  | .right => { v with x := v.x + v.speed * dt }
  | .left => { v with x := v.x - v.speed * dt }
  | .down => { v with y := v.y + v.speed * dt }
  | .up => { v with y := v.y - v.speed * dt }

/-- Step 2 of the Template Method (vehicles.py:46-54): accelerate and clear
`stopped`/`waiting_time` when the gate allows movement, else decelerate,
set `stopped` and accumulate the waiting time. -/
def gateStep (dt : ℚ) (canMove : Bool) (v1 : Vehicle) : Vehicle :=
  if canMove then { v1.accelerate dt with stopped := false, waiting_time := 0 }
  else { v1.decelerate dt with stopped := true, waiting_time := v1.waiting_time + dt }

/-- The Template Method `Vehicle.update` (vehicles.py:38-60): special
behavior, then the gate-driven speed step, then move;
`post_move_behavior` is a no-op for every subclass. -/
def update (dt : ℚ) (canMove : Bool) (r : RandomInput) (v : Vehicle) : Vehicle :=
  Vehicle.move dt (gateStep dt canMove (v.specialBehavior r))

end Vehicle

/-! ## Spatial query layer

Two following gates exist in the repository:
  * `Game.check_vehicle_ahead` (main.py:220-261) — the one the per-frame
    update consults (main.py:320);
  * `VehicleSpacingChecker.can_move_forward` (collision_utils.py:110-126)
    — lane- and size-aware, not imported by main.py.
Both are embedded below. Likewise two light gates exist; the one with an
emergency proximity threshold is `TrafficLightChecker.can_pass_traffic_light`
(collision_utils.py:133-173), embedded with its screen constants
SCREEN_WIDTH=1200, SCREEN_HEIGHT=800 (config.py). -/

/-- `VehicleSpacingChecker._get_distance_ahead` (collision_utils.py:93-108):
signed distance along the travel axis, `none` when `other` is not strictly
ahead. `Game.check_vehicle_ahead` (main.py:233-259) inlines the same
per-direction formula. -/
def get_distance_ahead (v o : Vehicle) : Option ℚ :=
  match v.direction with
  | .right => if o.x > v.x then some (o.x - v.x) else none
  | .left => if o.x < v.x then some (v.x - o.x) else none
  | .down => if o.y > v.y then some (o.y - v.y) else none
  | .up => if o.y < v.y then some (v.y - o.y) else none

/-- `VehicleSpacingChecker._are_in_same_lane` (collision_utils.py:80-90):
lateral offset within a 30-pixel tolerance. -/
def are_in_same_lane (v o : Vehicle) : Bool :=
  match v.direction with
  | .right => |v.y - o.y| < 30
  | .left => |v.y - o.y| < 30
  | .down => |v.x - o.x| < 30
  | .up => |v.x - o.x| < 30

/-- One body of the loop of `VehicleSpacingChecker.get_vehicle_ahead`
(collision_utils.py:58-78): keep the strictly-ahead same-direction
same-lane vehicle of least distance (`min_distance` starts at infinity). -/
def get_vehicle_ahead_step (v : Vehicle) (acc : Option (Vehicle × ℚ)) (o : Vehicle) :
    Option (Vehicle × ℚ) :=
  if o = v then acc
  else if o.direction ≠ v.direction then acc
  else if !(are_in_same_lane v o) then acc
  else
    match get_distance_ahead v o with
    | none => acc
    | some d =>
      match acc with
      | none => if 0 < d then some (o, d) else none
      | some (b, m) => if 0 < d ∧ d < m then some (o, d) else some (b, m)

/-- `VehicleSpacingChecker.get_vehicle_ahead` (collision_utils.py:58-78). -/
def get_vehicle_ahead (v : Vehicle) (vs : List Vehicle) : Option Vehicle :=
  (vs.foldl (get_vehicle_ahead_step v) none).map Prod.fst

/-- `VehicleSpacingChecker.can_move_forward` (collision_utils.py:110-126):
gap to the nearest vehicle ahead must be at least
`SAFE_DISTANCE_BETWEEN_VEHICLES = 90` plus half the sum of both vehicles'
lengths (integer floor division of the source on the always-even sum). -/
def can_move_forward (v : Vehicle) (vs : List Vehicle) : Bool :=
  match get_vehicle_ahead v vs with
  | none => true
  | some a =>
    match get_distance_ahead v a with
    | none => true
    | some d => d ≥ ((90 + (v.sizeL + a.sizeL) / 2 : Nat) : ℚ)

/-- Whether `other` makes `Game.check_vehicle_ahead` (main.py:220-261)
return False: same direction, strictly ahead, distance under the flat
`safe_distance = 80`. Lane and vehicle size are not consulted. -/
def blocksAhead (v o : Vehicle) : Bool :=
  if o = v then false
  else if o.direction ≠ v.direction then false
  else
    match get_distance_ahead v o with
    | none => false
    | some d => d < 80

/-- `Game.check_vehicle_ahead` (main.py:220-261): the following gate the
per-frame update consults (main.py:320). -/
def check_vehicle_ahead (v : Vehicle) (vs : List Vehicle) : Bool :=
  vs.all fun o => !(blocksAhead v o)

/-- `TrafficLightChecker._is_near_stop_line` (collision_utils.py:175-185):
within 150 pixels of the screen center (600, 400) along the travel axis. -/
def is_near_stop_line (v : Vehicle) : Bool :=
  match v.direction with
  | .right => |v.x - 600| < 150
  | .left => |v.x - 600| < 150
  | .down => |v.y - 400| < 150
  | .up => |v.y - 400| < 150

/-- The four lights as `can_pass_traffic_light` receives them: the dict
`{'horizontal': [h0, h1], 'vertical': [v0, v1]}` (main.py:113-116). -/
structure LightsDict where
  h0 : TrafficLight
  h1 : TrafficLight
  v0 : TrafficLight
  v1 : TrafficLight

/-- `TrafficLightChecker.can_pass_traffic_light` (collision_utils.py:133-173):
an emergency-priority vehicle not near the stop line bypasses the gate
(its lateral lane shift `_change_lane_if_needed` mutates only the position,
never the returned gate value); otherwise a vehicle inside the approach
zone before the intersection is gated by the light of its direction, and a
vehicle outside every zone may pass. The stop point backs off the stop
line (`STOP_LINE_DISTANCE = 110`) by the vehicle's half length
(`size[0] // 2`) plus `DETECTION_MARGIN = 10`. -/
def can_pass_traffic_light (v : Vehicle) (L : LightsDict) : Bool :=
  if v.has_priority && !(is_near_stop_line v) then true
  else
    let halfLen : ℚ := ((v.sizeL / 2 : Nat) : ℚ)
    match v.direction with
    | .right =>
      if v.x ≥ 600 - 110 - halfLen - 10 && v.x < 600 - 50 then L.h0.canPass else true
    | .left =>
      if v.x ≤ 600 + 110 + halfLen + 10 && v.x > 600 + 50 then L.h1.canPass else true
    | .down =>
      if v.y ≥ 400 - 110 - halfLen - 10 && v.y < 400 - 50 then L.v0.canPass else true
    | .up =>
      if v.y ≤ 400 + 110 + halfLen + 10 && v.y > 400 + 50 then L.v1.canPass else true

/-- Clearing/setting the priority flag, leaving every other field alone
(used to compare the gate's treatment of a priority vehicle with its
treatment of an ordinary one). -/
def Vehicle.setPriority (v : Vehicle) (b : Bool) : Vehicle :=
  { v with has_priority := b }

/-! ## Claim theorems about the spatial gates -/

/-- A vehicle heading right with another vehicle 50 px ahead of it but in a
different lane (lateral offset 100 ≥ tolerance 30). -/
def aheadGateV : Vehicle := ⟨0, 0, .right, 0, 100, 150, 80, 50, 30, .car, false, 0, false⟩

/-- The other vehicle: strictly ahead along x, far away laterally. -/
def aheadGateO : Vehicle := ⟨50, 100, .right, 0, 100, 150, 80, 50, 30, .car, false, 0, false⟩

theorem check_vehicle_ahead_on_example :
    check_vehicle_ahead aheadGateV [aheadGateO] = false := by
  have hb : blocksAhead aheadGateV aheadGateO = true := by
    unfold blocksAhead
    rw [if_neg (by norm_num [aheadGateV, aheadGateO]),
      if_neg (by norm_num [aheadGateV, aheadGateO])]
    norm_num [get_distance_ahead, aheadGateV, aheadGateO]
  simp [check_vehicle_ahead, hb]

theorem can_move_forward_on_example :
    can_move_forward aheadGateV [aheadGateO] = true := by
  have hstep : get_vehicle_ahead_step aheadGateV none aheadGateO = none := by
    unfold get_vehicle_ahead_step
    rw [if_neg (by norm_num [aheadGateV, aheadGateO]),
      if_neg (by norm_num [aheadGateV, aheadGateO]),
      if_pos (by norm_num [are_in_same_lane, aheadGateV, aheadGateO])]
  show (match get_vehicle_ahead aheadGateV [aheadGateO] with
    | none => true
    | some a => _) = true
  unfold get_vehicle_ahead
  rw [List.foldl_cons, hstep, List.foldl_nil]
  rfl

/-- C1 (counterexample): at `aheadGateV` against the single live vehicle
`aheadGateO`, the claimed equivalence fails — the per-frame gate
`Game.check_vehicle_ahead` blocks the vehicle although no vehicle in the
same lane is ahead of it (the same-lane, size-aware condition, which is
exactly `VehicleSpacingChecker.can_move_forward`, holds). -/
theorem check_vehicle_ahead_claim_counterexample :
    ¬(check_vehicle_ahead aheadGateV [aheadGateO] = true ↔
      can_move_forward aheadGateV [aheadGateO] = true) := by
  rw [check_vehicle_ahead_on_example, can_move_forward_on_example]
  simp

/-- C1 (amended): the following gate consulted by the per-frame update,
`Game.check_vehicle_ahead`, allows a vehicle to move iff no other vehicle
travelling in the same direction — in any lane, and regardless of either
vehicle's length — lies strictly ahead of it at a distance along the travel
axis below the flat `safe_distance = 80`. -/
theorem check_vehicle_ahead_iff (v : Vehicle) (vs : List Vehicle) :
    check_vehicle_ahead v vs = true ↔
      ∀ o ∈ vs, o ≠ v → o.direction = v.direction →
        ∀ d : ℚ, get_distance_ahead v o = some d → 80 ≤ d := by
  unfold check_vehicle_ahead
  rw [List.all_eq_true]
  constructor
  · intro h o ho hne hdir d hd
    have hb := h o ho
    rw [Bool.not_eq_true'] at hb
    unfold blocksAhead at hb
    rw [if_neg hne, if_neg (by simp [hdir]), hd] at hb
    simpa using hb
  · intro h o ho
    rw [Bool.not_eq_true']
    unfold blocksAhead
    by_cases h1 : o = v
    · rw [if_pos h1]
    · rw [if_neg h1]
      by_cases h2 : o.direction ≠ v.direction
      · rw [if_pos h2]
      · rw [if_neg h2]
        push_neg at h2
        rcases hd : get_distance_ahead v o with _ | d
        · rfl
        · have h80 := h o ho h1 h2 d hd
          simpa using h80

/-- C2: `TrafficLightChecker.can_pass_traffic_light` lets a priority
(emergency) vehicle that is not within the 150-px proximity threshold of
the stop line pass regardless of every light's phase, and gates a priority
vehicle that is within the threshold exactly like the same vehicle without
the priority flag. -/
theorem emergency_light_gate_bypass (v : Vehicle) (L : LightsDict)
    (hp : v.has_priority = true) :
    (is_near_stop_line v = false → can_pass_traffic_light v L = true) ∧
    (is_near_stop_line v = true →
      can_pass_traffic_light v L = can_pass_traffic_light (v.setPriority false) L) := by
  constructor
  · intro hn
    unfold can_pass_traffic_light
    rw [if_pos (by simp [hp, hn])]
  · intro hn
    unfold can_pass_traffic_light
    rw [if_neg (by simp [hn]), if_neg (by simp [Vehicle.setPriority])]
    rfl

/-- An emergency vehicle far from the intersection (x = 100, center 600). -/
def emergencyFar : Vehicle := mkVehicle .emergency 100 370 .right 0

/-- An emergency vehicle within the 150-px threshold (x = 500). -/
def emergencyNear : Vehicle := mkVehicle .emergency 500 370 .right 0

/-- The game's four all-red lights in the dict layout of main.py:113-116. -/
def redLightsDict : LightsDict :=
  ⟨setupLight 300 200 "horizontal", setupLight 700 400 "horizontal",
   setupLight 400 100 "vertical", setupLight 600 500 "vertical"⟩

theorem emergency_light_gate_bypass_witness :
    can_pass_traffic_light emergencyFar redLightsDict = true ∧
    can_pass_traffic_light emergencyNear redLightsDict =
      can_pass_traffic_light (emergencyNear.setPriority false) redLightsDict :=
  ⟨(emergency_light_gate_bypass emergencyFar redLightsDict rfl).1
      (by norm_num [is_near_stop_line, emergencyFar, mkVehicle]),
   (emergency_light_gate_bypass emergencyNear redLightsDict rfl).2
      (by norm_num [is_near_stop_line, emergencyNear, mkVehicle])⟩

/-! ## Event pipeline (src/src/event_system.py)

The Chain of Responsibility: six handlers sharing the mutable
`game_state` dict (main.py:39-50). The event `data` dict carries a fixed
set of semantic keys, modelled as optional fields; the `response` dict is
empty or carries a message and severity (the numeric delta it also carries
is not consumed by any claim and is rendered into the message).
`pygame.time.get_ticks()` — the wall clock the logger stamps records with
— is an explicit `now` input. -/

/-- The `game_state` dict (main.py:39-50). -/
structure GameState where
  score : Int
  lives : Int
  level : Int
  vehicles_passed : Nat
  collisions : Nat
  violations : Nat
  time_scale : ℚ
  power_up_duration : ℚ
  score_multiplier : ℚ
  multiplier_duration : ℚ
deriving DecidableEq

/-- The keys `GameEvent.data` is read or written with across all handlers
(`vehicle1`, `vehicle2`, `vehicle`, `type`, `level`, `waiting_vehicles`,
`remove_vehicles`, `clear_vehicles`); a key that was never written is
`none`. -/
structure EventData where
  vehicle1 : Option Vehicle
  vehicle2 : Option Vehicle
  vehicle : Option Vehicle
  vtype : Option String
  level : Option String
  waiting_vehicles : Nat
  remove_vehicles : Option (List Vehicle)
  clear_vehicles : Bool
deriving DecidableEq

/-- An empty `data` payload except for the two collision participants. -/
def collisionData (v1 v2 : Vehicle) : EventData :=
  ⟨some v1, some v2, none, none, none, 0, none, false⟩

/-- `GameEvent.response` once a handler filled it in (message text and
severity tag). -/
structure Response where
  message : String
  severity : String
deriving DecidableEq

/-- `GameEvent` (event_system.py:11-21): type, payload, `handled` flag and
the `response` record (`none` models the initial empty dict). -/
structure GameEvent where
  event_type : String
  data : EventData
  handled : Bool
  response : Option Response
deriving DecidableEq

/-- A record of `LoggingHandler.event_log` (event_system.py:322-329). -/
structure LogRecord where
  rtype : String
  rdata : EventData
  rresponse : Option Response
  timestamp : Nat
deriving DecidableEq

/-- The mutable state the chain acts on: the shared `game_state` plus the
`LoggingHandler`'s own `event_log`. -/
structure ChainState where
  gs : GameState
  log : List LogRecord
deriving DecidableEq

/-- `CollisionHandler.process` (event_system.py:78-106): with both
participants present, apply the penalty (300 when either has priority,
else 100) clamped at score 0, take a life, count the collision, mark both
vehicles for removal and fill the response — without marking the event
handled. With a participant missing, do nothing. -/
def collisionProcess (s : ChainState) (e : GameEvent) : ChainState × GameEvent :=
  match e.data.vehicle1, e.data.vehicle2 with
  | some v1, some v2 =>
    let penalty : Int := if v1.has_priority || v2.has_priority then 300 else 100
    let gs := s.gs
    let gs1 := { gs with
      score := max 0 (gs.score - penalty),
      lives := gs.lives - 1,
      collisions := gs.collisions + 1 }
    let e1 := { e with
      data := { e.data with remove_vehicles := some [v1, v2] },
      response := some ⟨"¡Colisión! -" ++ toString penalty ++ " puntos",
        if penalty > 100 then "high" else "medium"⟩ }
    ({ s with gs := gs1 }, e1)
  | _, _ => (s, e)

/-- `TrafficViolationHandler.process` (event_system.py:122-152). -/
def violationProcess (s : ChainState) (e : GameEvent) : ChainState × GameEvent :=
  let penalty : Int :=
    match e.data.vtype with
    | some "red_light" => 50
    | some "speeding" => 30
    | some "wrong_lane" => 40
    | some "emergency_obstruction" => 200
    | _ => 25
  let msg : String :=
    match e.data.vtype with
    | some "red_light" => "¡Semáforo en rojo ignorado!"
    | some "speeding" => "¡Exceso de velocidad!"
    | some "wrong_lane" => "¡Carril incorrecto!"
    | some "emergency_obstruction" => "¡Obstrucción a vehículo de emergencia!"
    | _ => "Infracción"
  let gs := s.gs
  let gs1 := { gs with
    score := max 0 (gs.score - penalty),
    violations := gs.violations + 1 }
  ({ s with gs := gs1 },
   { e with response := some ⟨msg ++ " -" ++ toString penalty ++ " puntos",
      if penalty > 100 then "high" else "low"⟩ })

/-- `ScoreHandler.process` (event_system.py:168-207): `vehicle_passed`
awards 10 base points (×3 for a priority vehicle, ×2 for a `Bus`) and
counts the vehicle; `smooth_flow` awards 50, `perfect_timing` 25. -/
def scoreProcess (s : ChainState) (e : GameEvent) : ChainState × GameEvent :=
  let pm : Int × String :=
    if e.event_type = "vehicle_passed" then
      match e.data.vehicle with
      | some v =>
        if v.has_priority then (30, "¡Vehículo de emergencia! +30 puntos")
        else if v.cls = .bus then (20, "¡Autobús pasó! +20 puntos")
        else (10, "+10 puntos")
      | none => (10, "+10 puntos")
    else if e.event_type = "smooth_flow" then (50, "¡Flujo perfecto! +50 puntos")
    else if e.event_type = "perfect_timing" then (25, "¡Timing perfecto! +25 puntos")
    else (0, "")
  let gs := s.gs
  let gs1 := { gs with
    vehicles_passed :=
      if e.event_type = "vehicle_passed" then gs.vehicles_passed + 1 else gs.vehicles_passed,
    score := gs.score + pm.1 }
  ({ s with gs := gs1 }, { e with response := some ⟨pm.2, "positive"⟩ })

/-- `PowerUpHandler.process` (event_system.py:223-261): the four known
subtypes mutate the state and fill a response; an unknown subtype does
nothing. -/
def powerUpProcess (s : ChainState) (e : GameEvent) : ChainState × GameEvent :=
  match e.data.vtype with
  | some "slow_time" =>
    ({ s with gs := { s.gs with time_scale := 1/2, power_up_duration := 5 } },
     { e with response := some ⟨"¡Tiempo ralentizado!", "positive"⟩ })
  | some "extra_life" =>
    ({ s with gs := { s.gs with lives := s.gs.lives + 1 } },
     { e with response := some ⟨"¡Vida extra!", "positive"⟩ })
  | some "score_multiplier" =>
    ({ s with gs := { s.gs with score_multiplier := 2, multiplier_duration := 10 } },
     { e with response := some ⟨"¡Puntos x2!", "positive"⟩ })
  | some "clear_traffic" =>
    (s, { e with
      data := { e.data with clear_vehicles := true },
      response := some ⟨"¡Tráfico despejado!", "positive"⟩ })
  | _ => (s, e)

/-- `CongestionHandler.process` (event_system.py:277-306): penalty tiered
by the congestion level (default key `'medium'`, default penalty 10). -/
def congestionProcess (s : ChainState) (e : GameEvent) : ChainState × GameEvent :=
  let lvl : String := (e.data.level).getD "medium"
  let penalty : Int :=
    if lvl = "low" then 5
    else if lvl = "medium" then 15
    else if lvl = "high" then 30
    else if lvl = "critical" then 50
    else 10
  let msg : String :=
    if lvl = "low" then "Tráfico lento"
    else if lvl = "medium" then "Congestión moderada"
    else if lvl = "high" then "¡Tráfico pesado!"
    else if lvl = "critical" then "¡CONGESTIÓN CRÍTICA!"
    else "None"
  let gs1 := { s.gs with score := max 0 (s.gs.score - penalty) }
  ({ s with gs := gs1 },
   { e with response := some ⟨msg ++ " -" ++ toString penalty ++ " puntos",
      if lvl = "low" ∨ lvl = "medium" then "medium" else "high"⟩ })

/-- `LoggingHandler.process` (event_system.py:322-336): append the record,
keep only the last 100, and mark the event completely handled. -/
def loggingProcess (now : Nat) (s : ChainState) (e : GameEvent) : ChainState × GameEvent :=
  let log1 := s.log ++ [⟨e.event_type, e.data, e.response, now⟩]
  let log2 := if log1.length > 100 then log1.drop 1 else log1
  ({ s with log := log2 }, { e with handled := true })

/-- The six handlers, in the order `EventSystem.__init__` chains them
(event_system.py:356-372). -/
inductive HandlerTag where
  | collision
  | violation
  | score
  | powerup
  | congestion
  | logging
deriving DecidableEq

/-- Each handler's `can_handle` predicate. -/
def canHandle : HandlerTag → GameEvent → Bool
  | .collision, e => e.event_type = "collision"
  | .violation, e => e.event_type = "traffic_violation"
  | .score, e => e.event_type = "vehicle_passed" ∨ e.event_type = "smooth_flow" ∨
      e.event_type = "perfect_timing"
  | .powerup, e => e.event_type = "power_up"
  | .congestion, e => e.event_type = "congestion"
  | .logging, _ => true

/-- Each handler's `process` step. -/
def processTag (now : Nat) : HandlerTag → ChainState → GameEvent → ChainState × GameEvent
  | .collision => collisionProcess
  | .violation => violationProcess
  | .score => scoreProcess
  | .powerup => powerUpProcess
  | .congestion => congestionProcess
  | .logging => loggingProcess now

/-- The first half of `EventHandler.handle` (event_system.py:43-44): a
handler that accepts the event processes it, otherwise state and event are
untouched. -/
def stepHandler (now : Nat) (t : HandlerTag) (s : ChainState) (e : GameEvent) :
    ChainState × GameEvent :=
  if canHandle t e then processTag now t s e else (s, e)

/-- `EventHandler.handle` (event_system.py:38-50) along a handler list: a
handler that accepts the event processes it; the event is passed on only
while not yet marked handled. -/
def handleFrom (now : Nat) : List HandlerTag → ChainState → GameEvent → ChainState × GameEvent
  | [], s, e => (s, e)
  | t :: rest, s, e =>
    let p := stepHandler now t s e
    if p.2.handled then p else handleFrom now rest p.1 p.2

/-- The fixed chain collision → violation → score → power-up → congestion
→ logging. -/
def handlerChain : List HandlerTag :=
  [.collision, .violation, .score, .powerup, .congestion, .logging]

/-- Dispatching one event through the full chain, as
`EventSystem.emit_event` does after constructing the event
(event_system.py:374-388). -/
def dispatchEvent (now : Nat) (s : ChainState) (e : GameEvent) : ChainState × GameEvent :=
  handleFrom now handlerChain s e

/-! ### Stepping lemmas for the chain -/

theorem handleFrom_nil (now : Nat) (s : ChainState) (e : GameEvent) :
    handleFrom now [] s e = (s, e) := rfl

theorem handleFrom_cons (now : Nat) (t : HandlerTag) (rest : List HandlerTag)
    (s : ChainState) (e : GameEvent) :
    handleFrom now (t :: rest) s e =
      if (stepHandler now t s e).2.handled then stepHandler now t s e
      else handleFrom now rest (stepHandler now t s e).1 (stepHandler now t s e).2 := rfl

/-- A freshly constructed collision event, as `Game.check_collisions`
emits it (main.py:162-165): payload `{'vehicle1': v1, 'vehicle2': v2}`,
not yet handled, empty response. -/
def freshCollisionEvent (v1 v2 : Vehicle) : GameEvent :=
  ⟨"collision", collisionData v1 v2, false, none⟩

/-- C5: dispatching a fresh collision event with both participants applies
score := max 0 (score − penalty) with penalty 100 (300 when either
participant has priority), decrements lives, increments the collision
counter, records both vehicles under `remove_vehicles`, and the collision
handler itself leaves the event unhandled — only the terminal logging
handler, which still observes the event, marks it handled. -/
theorem collision_event_effects (now : Nat) (s : ChainState) (v1 v2 : Vehicle) :
    (dispatchEvent now s (freshCollisionEvent v1 v2)).1.gs.score =
      max 0 (s.gs.score - (if v1.has_priority || v2.has_priority then 300 else 100)) ∧
    (dispatchEvent now s (freshCollisionEvent v1 v2)).1.gs.lives = s.gs.lives - 1 ∧
    (dispatchEvent now s (freshCollisionEvent v1 v2)).1.gs.collisions = s.gs.collisions + 1 ∧
    (dispatchEvent now s (freshCollisionEvent v1 v2)).2.data.remove_vehicles = some [v1, v2] ∧
    (collisionProcess s (freshCollisionEvent v1 v2)).2.handled = false ∧
    (dispatchEvent now s (freshCollisionEvent v1 v2)).2.handled = true := by
  refine ⟨rfl, rfl, rfl, rfl, rfl, rfl⟩

/-- Two ordinary (non-priority) cars used in the concrete dispatches. -/
def exCar1 : Vehicle := mkVehicle .car 0 270 .right 0

def exCar2 : Vehicle := mkVehicle .car 200 270 .right 0

/-- A game state 500 points, 5 lives, no counters, no active modifiers. -/
def exChainState : ChainState := ⟨⟨500, 5, 1, 0, 0, 0, 1, 0, 1, 0⟩, []⟩

/-- The first dispatch of a fresh two-car collision event. -/
def firstDispatch : ChainState × GameEvent :=
  dispatchEvent 0 exChainState (freshCollisionEvent exCar1 exCar2)

/-- Re-dispatching the very same (now handled) event object. -/
def secondDispatch : ChainState × GameEvent :=
  dispatchEvent 0 firstDispatch.1 firstDispatch.2

/-- C3 (counterexample): the first dispatch of the two-car collision leaves
500 − 100 = 400 points, 4 lives and 1 recorded collision; re-dispatching
the same event object penalizes again — 300 points, 3 lives, 2 collisions
— because `CollisionHandler.process` reruns on any event whose type
matches, handled or not. -/
theorem collision_redispatch_counterexample :
    firstDispatch.1.gs.score = 400 ∧ firstDispatch.1.gs.lives = 4 ∧
    firstDispatch.1.gs.collisions = 1 ∧
    secondDispatch.1.gs.score = 300 ∧ secondDispatch.1.gs.lives = 3 ∧
    secondDispatch.1.gs.collisions = 2 := by
  refine ⟨rfl, rfl, rfl, rfl, rfl, rfl⟩

/-- C3 (amended): dispatching an already-handled collision event that still
carries both participants applies the score penalty, the life decrement
and the collision increment a second time; the `handled` flag only stops
the dispatch after the collision handler (in particular no new log entry),
it does not prevent the reprocessing. -/
theorem rehandled_collision_repenalizes (now : Nat) (s : ChainState)
    (e : GameEvent) (v1 v2 : Vehicle)
    (ht : e.event_type = "collision") (h1 : e.data.vehicle1 = some v1)
    (h2 : e.data.vehicle2 = some v2) (hh : e.handled = true) :
    (dispatchEvent now s e).1.gs.score =
      max 0 (s.gs.score - (if v1.has_priority || v2.has_priority then 300 else 100)) ∧
    (dispatchEvent now s e).1.gs.lives = s.gs.lives - 1 ∧
    (dispatchEvent now s e).1.gs.collisions = s.gs.collisions + 1 ∧
    (dispatchEvent now s e).1.log = s.log := by
  have hhand : (collisionProcess s e).2.handled = e.handled := by
    unfold collisionProcess
    rw [h1, h2]
  have hd : dispatchEvent now s e = collisionProcess s e := by
    unfold dispatchEvent handlerChain
    rw [handleFrom_cons]
    have hstep : stepHandler now .collision s e = collisionProcess s e := by
      unfold stepHandler
      rw [if_pos (by simp [canHandle, ht])]
      rfl
    rw [hstep, if_pos (by rw [hhand, hh])]
  rw [hd]
  refine ⟨?_, ?_, ?_, ?_⟩ <;> unfold collisionProcess <;> rw [h1, h2]

theorem rehandled_collision_repenalizes_witness :
    secondDispatch.1.gs.score =
      max 0 (firstDispatch.1.gs.score -
        (if exCar1.has_priority || exCar2.has_priority then 300 else 100)) ∧
    secondDispatch.1.gs.lives = firstDispatch.1.gs.lives - 1 ∧
    secondDispatch.1.gs.collisions = firstDispatch.1.gs.collisions + 1 ∧
    secondDispatch.1.log = firstDispatch.1.log :=
  rehandled_collision_repenalizes 0 firstDispatch.1 firstDispatch.2 exCar1 exCar2
    rfl rfl rfl rfl

/-- C10: dispatching a collision event with `vehicle1` or `vehicle2`
missing leaves the game state untouched, adds nothing to the payload or
response, yet still reaches the logging handler, which appends the record
to the bounded log and marks the event fully handled. -/
theorem collision_missing_vehicle_noop (now : Nat) (s : ChainState) (e : GameEvent)
    (ht : e.event_type = "collision")
    (hv : e.data.vehicle1 = none ∨ e.data.vehicle2 = none)
    (hh : e.handled = false) :
    (dispatchEvent now s e).1.gs = s.gs ∧
    (dispatchEvent now s e).2.data = e.data ∧
    (dispatchEvent now s e).2.response = e.response ∧
    (dispatchEvent now s e).2.handled = true ∧
    (dispatchEvent now s e).1.log =
      (if (s.log ++ [LogRecord.mk e.event_type e.data e.response now]).length > 100
       then (s.log ++ [LogRecord.mk e.event_type e.data e.response now]).drop 1
       else s.log ++ [LogRecord.mk e.event_type e.data e.response now]) := by
  have hcp : collisionProcess s e = (s, e) := by
    unfold collisionProcess
    rcases hv with h | h
    · simp only [h]
    · rcases h1 : e.data.vehicle1 with _ | a
      · rfl
      · simp only [h]
  have hskip : ∀ t : HandlerTag, canHandle t e = false →
      stepHandler now t s e = (s, e) := by
    intro t hc
    unfold stepHandler
    rw [hc]
    simp
  have hstep1 : stepHandler now .collision s e = (s, e) := by
    unfold stepHandler
    rw [if_pos (by simp [canHandle, ht])]
    exact hcp
  have hd : dispatchEvent now s e = loggingProcess now s e := by
    unfold dispatchEvent handlerChain
    rw [handleFrom_cons, hstep1, if_neg (by simp [hh])]
    rw [handleFrom_cons, hskip .violation (by simp [canHandle, ht]), if_neg (by simp [hh])]
    rw [handleFrom_cons, hskip .score (by simp [canHandle, ht]), if_neg (by simp [hh])]
    rw [handleFrom_cons, hskip .powerup (by simp [canHandle, ht]), if_neg (by simp [hh])]
    rw [handleFrom_cons, hskip .congestion (by simp [canHandle, ht]), if_neg (by simp [hh])]
    rfl
  rw [hd]
  exact ⟨rfl, rfl, rfl, rfl, rfl⟩

/-- The collision event `{'vehicle1': missing, 'vehicle2': car}`. -/
def missingVehicleEvent : GameEvent :=
  ⟨"collision", ⟨none, some exCar2, none, none, none, 0, none, false⟩, false, none⟩

theorem collision_missing_vehicle_noop_witness :
    (dispatchEvent 7 exChainState missingVehicleEvent).1.gs = exChainState.gs ∧
    (dispatchEvent 7 exChainState missingVehicleEvent).2.data = missingVehicleEvent.data ∧
    (dispatchEvent 7 exChainState missingVehicleEvent).2.response =
      missingVehicleEvent.response ∧
    (dispatchEvent 7 exChainState missingVehicleEvent).2.handled = true ∧
    (dispatchEvent 7 exChainState missingVehicleEvent).1.log =
      (if (exChainState.log ++ [LogRecord.mk missingVehicleEvent.event_type
            missingVehicleEvent.data missingVehicleEvent.response 7]).length > 100
       then (exChainState.log ++ [LogRecord.mk missingVehicleEvent.event_type
            missingVehicleEvent.data missingVehicleEvent.response 7]).drop 1
       else exChainState.log ++ [LogRecord.mk missingVehicleEvent.event_type
            missingVehicleEvent.data missingVehicleEvent.response 7]) :=
  collision_missing_vehicle_noop 7 exChainState missingVehicleEvent rfl (Or.inl rfl) rfl

/-! ### Kinetic speed bounds (for C6) -/

theorem busResume_fields (r : RandomInput) (v1 : Vehicle)
    (h0 : 0 ≤ v1.speed) (h1 : v1.speed ≤ v1.max_speed)
    (h60 : (60:ℚ) ≤ v1.max_speed) :
    0 ≤ (Vehicle.busResume r v1).speed ∧
    (Vehicle.busResume r v1).speed ≤ (Vehicle.busResume r v1).max_speed ∧
    (Vehicle.busResume r v1).max_speed = v1.max_speed ∧
    (Vehicle.busResume r v1).acceleration = v1.acceleration ∧
    (Vehicle.busResume r v1).cls = v1.cls := by
  unfold Vehicle.busResume
  split
  · refine ⟨by norm_num [VehicleClass.baseSpeed], ?_, rfl, rfl, rfl⟩
    show VehicleClass.baseSpeed .bus ≤ v1.max_speed
    simpa [VehicleClass.baseSpeed] using h60
  · exact ⟨h0, h1, rfl, rfl, rfl⟩

theorem specialBehavior_fields (v : Vehicle) (r : RandomInput)
    (h0 : 0 ≤ v.speed) (h1 : v.speed ≤ v.max_speed)
    (hbus : v.cls = .bus → (60:ℚ) ≤ v.max_speed) :
    0 ≤ (v.specialBehavior r).speed ∧
    (v.specialBehavior r).speed ≤ (v.specialBehavior r).max_speed ∧
    (v.specialBehavior r).max_speed = v.max_speed ∧
    (v.specialBehavior r).acceleration = v.acceleration ∧
    (v.specialBehavior r).cls = v.cls := by
  obtain ⟨jh, ja, bs, br⟩ := r
  obtain ⟨x, y, d, lane, sp, ms, acc, sL, sW, cls, st, wt, pr⟩ := v
  rcases cls with _ | _ | _ | _ | _
  · exact ⟨h0, h1, rfl, rfl, rfl⟩
  · rcases st with _ | _ <;> rcases jh with _ | _ <;> rcases d with _ | _ | _ | _ <;>
      exact ⟨h0, h1, rfl, rfl, rfl⟩
  · rcases st with _ | _ <;> rcases bs with _ | _
    · exact busResume_fields _ _ h0 h1 (hbus rfl)
    · exact busResume_fields _ _ (le_refl 0) (h0.trans h1) (hbus rfl)
    · exact busResume_fields _ _ h0 h1 (hbus rfl)
    · exact busResume_fields _ _ h0 h1 (hbus rfl)
  · exact ⟨h0, h1, rfl, rfl, rfl⟩
  · exact ⟨h0, h1, rfl, rfl, rfl⟩

theorem accelerate_bounds (v : Vehicle) (dt : ℚ)
    (h0 : 0 ≤ v.speed) (h1 : v.speed ≤ v.max_speed) (hdt : 0 ≤ dt)
    (ha : 0 ≤ v.acceleration) :
    0 ≤ (Vehicle.accelerate dt v).speed ∧
    (Vehicle.accelerate dt v).speed ≤ (Vehicle.accelerate dt v).max_speed := by
  unfold Vehicle.accelerate
  split
  · exact ⟨le_min (add_nonneg h0 (mul_nonneg ha hdt)) (h0.trans h1), min_le_right _ _⟩
  · exact ⟨h0, h1⟩

theorem decelerate_bounds (v : Vehicle) (dt : ℚ)
    (h0 : 0 ≤ v.speed) (h1 : v.speed ≤ v.max_speed) (hdt : 0 ≤ dt)
    (ha : 0 ≤ v.acceleration) :
    0 ≤ (Vehicle.decelerate dt v).speed ∧
    (Vehicle.decelerate dt v).speed ≤ (Vehicle.decelerate dt v).max_speed := by
  have hfac : 0 ≤ (if v.cls = .truck then (3/2 : ℚ) else 2) := by split <;> norm_num
  have hc : 0 ≤ v.acceleration * (if v.cls = .truck then (3/2 : ℚ) else 2) * dt :=
    mul_nonneg (mul_nonneg ha hfac) hdt
  unfold Vehicle.decelerate
  by_cases hsp : v.speed > 0
  · rw [if_pos hsp]
    exact ⟨le_max_right _ _, max_le ((sub_le_self _ hc).trans h1) (h0.trans h1)⟩
  · rw [if_neg hsp]
    exact ⟨h0, h1⟩

theorem move_fields (dt : ℚ) (v : Vehicle) :
    (Vehicle.move dt v).speed = v.speed ∧ (Vehicle.move dt v).max_speed = v.max_speed := by
  unfold Vehicle.move
  rcases hd : v.direction with _ | _ | _ | _ <;> exact ⟨rfl, rfl⟩

theorem gateStep_bounds (dt : ℚ) (canMove : Bool) (v1 : Vehicle)
    (h0 : 0 ≤ v1.speed) (h1 : v1.speed ≤ v1.max_speed) (hdt : 0 ≤ dt)
    (ha : 0 ≤ v1.acceleration) :
    0 ≤ (Vehicle.gateStep dt canMove v1).speed ∧
    (Vehicle.gateStep dt canMove v1).speed ≤ (Vehicle.gateStep dt canMove v1).max_speed := by
  unfold Vehicle.gateStep
  by_cases hcm : canMove = true
  · rw [if_pos hcm]
    exact accelerate_bounds v1 dt h0 h1 hdt ha
  · rw [if_neg hcm]
    exact decelerate_bounds v1 dt h0 h1 hdt ha

theorem vehicle_update_speed_bounds (v : Vehicle) (dt : ℚ) (canMove : Bool)
    (r : RandomInput)
    (h0 : 0 ≤ v.speed) (h1 : v.speed ≤ v.max_speed) (hdt : 0 ≤ dt)
    (ha : 0 ≤ v.acceleration) (hbus : v.cls = .bus → (60:ℚ) ≤ v.max_speed) :
    0 ≤ (Vehicle.update dt canMove r v).speed ∧
    (Vehicle.update dt canMove r v).speed ≤ (Vehicle.update dt canMove r v).max_speed := by
  obtain ⟨s0, s1, smax, sacc, _⟩ := specialBehavior_fields v r h0 h1 hbus
  have ha1 : 0 ≤ (v.specialBehavior r).acceleration := sacc ▸ ha
  unfold Vehicle.update
  obtain ⟨m0, m1⟩ := move_fields dt (Vehicle.gateStep dt canMove (v.specialBehavior r))
  rw [m0, m1]
  exact gateStep_bounds dt canMove (v.specialBehavior r) s0 s1 hdt ha1

/-! ### Score and lives through the chain (for C6) -/

theorem processTag_score_nonneg (now : Nat) (t : HandlerTag) (s : ChainState)
    (e : GameEvent) (h : 0 ≤ s.gs.score) : 0 ≤ (processTag now t s e).1.gs.score := by
  cases t with
  | collision =>
    show 0 ≤ (collisionProcess s e).1.gs.score
    unfold collisionProcess
    rcases h1 : e.data.vehicle1 with _ | a
    · exact h
    · rcases h2 : e.data.vehicle2 with _ | b
      · exact h
      · exact le_max_left 0 _
  | violation => exact le_max_left 0 _
  | score =>
    show 0 ≤ (scoreProcess s e).1.gs.score
    refine add_nonneg h ?_
    split
    · split
      · split_ifs <;> decide
      · decide
    · split_ifs <;> decide
  | powerup =>
    show 0 ≤ (powerUpProcess s e).1.gs.score
    unfold powerUpProcess
    split <;> exact h
  | congestion => exact le_max_left 0 _
  | logging => exact h

theorem stepHandler_score_nonneg (now : Nat) (t : HandlerTag) (s : ChainState)
    (e : GameEvent) (h : 0 ≤ s.gs.score) : 0 ≤ (stepHandler now t s e).1.gs.score := by
  unfold stepHandler
  split
  · exact processTag_score_nonneg now t s e h
  · exact h

theorem handleFrom_score_nonneg (now : Nat) (ts : List HandlerTag) :
    ∀ (s : ChainState) (e : GameEvent), 0 ≤ s.gs.score →
      0 ≤ (handleFrom now ts s e).1.gs.score := by
  induction ts with
  | nil => intro s e h; exact h
  | cons t rest ih =>
    intro s e h
    rw [handleFrom_cons]
    split
    · exact stepHandler_score_nonneg now t s e h
    · exact ih _ _ (stepHandler_score_nonneg now t s e h)

theorem processTag_event_type (now : Nat) (t : HandlerTag) (s : ChainState)
    (e : GameEvent) : (processTag now t s e).2.event_type = e.event_type := by
  cases t with
  | collision =>
    show (collisionProcess s e).2.event_type = e.event_type
    unfold collisionProcess
    rcases h1 : e.data.vehicle1 with _ | a
    · rfl
    · rcases h2 : e.data.vehicle2 with _ | b <;> rfl
  | violation => rfl
  | score => rfl
  | powerup =>
    show (powerUpProcess s e).2.event_type = e.event_type
    unfold powerUpProcess
    split <;> rfl
  | congestion => rfl
  | logging => rfl

theorem stepHandler_event_type (now : Nat) (t : HandlerTag) (s : ChainState)
    (e : GameEvent) : (stepHandler now t s e).2.event_type = e.event_type := by
  unfold stepHandler
  split
  · exact processTag_event_type now t s e
  · rfl

theorem stepHandler_lives_mono (now : Nat) (t : HandlerTag) (s : ChainState)
    (e : GameEvent) (hne : e.event_type ≠ "collision") :
    s.gs.lives ≤ (stepHandler now t s e).1.gs.lives := by
  unfold stepHandler
  cases t with
  | collision =>
    rw [if_neg (by simp [canHandle, hne])]
  | violation => split <;> exact le_rfl
  | score => split <;> exact le_rfl
  | powerup =>
    split
    · show s.gs.lives ≤ (powerUpProcess s e).1.gs.lives
      unfold powerUpProcess
      split
      · exact le_rfl
      · exact le_of_lt (lt_add_one _)
      · exact le_rfl
      · exact le_rfl
      · exact le_rfl
    · exact le_rfl
  | congestion => split <;> exact le_rfl
  | logging => split <;> exact le_rfl

theorem handleFrom_lives_mono (now : Nat) (ts : List HandlerTag) :
    ∀ (s : ChainState) (e : GameEvent), e.event_type ≠ "collision" →
      s.gs.lives ≤ (handleFrom now ts s e).1.gs.lives := by
  induction ts with
  | nil => intro s e _; exact le_rfl
  | cons t rest ih =>
    intro s e hne
    rw [handleFrom_cons]
    have hmono := stepHandler_lives_mono now t s e hne
    split
    · exact hmono
    · exact hmono.trans (ih _ _ (by rw [stepHandler_event_type now t s e]; exact hne))

/-- C6: (a) every freshly spawned vehicle starts with
0 ≤ speed ≤ max_speed; (b) one Template-Method update step, for any frame
delta, gate value and random draws, keeps 0 ≤ speed ≤ max_speed; (c) any
event dispatch keeps the score non-negative; (d) no dispatch of a
non-collision event ever decreases lives — the collision handler is the
only handler that decrements them. -/
theorem frame_invariants :
    (∀ (cls : VehicleClass) (x y : ℚ) (d : Dir) (lane : Int),
      0 ≤ (mkVehicle cls x y d lane).speed ∧
      (mkVehicle cls x y d lane).speed ≤ (mkVehicle cls x y d lane).max_speed) ∧
    (∀ (v : Vehicle) (dt : ℚ) (canMove : Bool) (r : RandomInput),
      0 ≤ v.speed → v.speed ≤ v.max_speed → 0 ≤ dt → 0 ≤ v.acceleration →
      (v.cls = .bus → (60:ℚ) ≤ v.max_speed) →
      0 ≤ (Vehicle.update dt canMove r v).speed ∧
      (Vehicle.update dt canMove r v).speed ≤ (Vehicle.update dt canMove r v).max_speed) ∧
    (∀ (now : Nat) (s : ChainState) (e : GameEvent),
      0 ≤ s.gs.score → 0 ≤ (dispatchEvent now s e).1.gs.score) ∧
    (∀ (now : Nat) (s : ChainState) (e : GameEvent),
      e.event_type ≠ "collision" → s.gs.lives ≤ (dispatchEvent now s e).1.gs.lives) := by
  refine ⟨?_, ?_, ?_, ?_⟩
  · intro cls x y d lane
    cases cls <;> constructor <;>
      norm_num [mkVehicle, VehicleClass.baseSpeed, VehicleClass.maxSpeed]
  · intro v dt canMove r h0 h1 hdt ha hbus
    exact vehicle_update_speed_bounds v dt canMove r h0 h1 hdt ha hbus
  · intro now s e h
    exact handleFrom_score_nonneg now handlerChain s e h
  · intro now s e hne
    exact handleFrom_lives_mono now handlerChain s e hne
